import Mathlib

/-!
Verification of the streaming continuation protocol,
phase controller and conversation-state plumbing, shallowly embedded from
the Next.js API route versions and the React client in the repository.
-/

namespace ToolHire

/-- JS `String.prototype.includes`: `includesStr s pat` is true when `pat`
occurs contiguously in `s` (the empty pattern always occurs). -/
def includesStr (s pat : String) : Bool :=
  s.toList.tails.any (fun t => pat.toList.isPrefixOf t)

/-- The phase-completion sentinel checked by the streaming route versions. -/
def SENTINEL : String := "## FINAL SUMMARY ##"

/-- The weaker sentinel substring checked by the legacy route version. -/
def LEGACY_SENTINEL : String := "FINAL SUMMARY"

example : includesStr "a ## FINAL SUMMARY ## b" SENTINEL = true := by decide
example : includesStr "FINAL SUMMARY" SENTINEL = false := by decide
example : includesStr "" SENTINEL = false := by decide
example : includesStr "x" "" = true := by decide

/-- One conversation turn: a role (`"user"` or `"model"`) and the text of its
single part (`{ role, parts: [{ text }] }` in the source). -/
structure Turn where
  role : String
  text : String
deriving DecidableEq, Repr

/-- One newline-delimited wire record of a streaming response. Keys absent
from the JSON object are modelled as `none` (respectively `false`). -/
structure StreamRecord where
  chunk : Option String := none
  done : Bool := false
  error : Bool := false
  text : Option String := none
  conversationHistory : Option (List Turn) := none
  isComplete : Option Bool := none
  projectInformation : Option String := none
  continuation : Option Bool := none
  fullResponse : Option String := none
  partialText : Option String := none
deriving DecidableEq, Repr

/-- Body of a non-streaming JSON response. Keys absent from the JSON object
are modelled as `none` (respectively `false`); `conversationContext` is the
string-typed history of the legacy route version. -/
structure JsonResult where
  text : String := ""
  error : Bool := false
  conversationHistory : Option (List Turn) := none
  conversationContext : Option String := none
  isComplete : Option Bool := none
  projectInformation : Option String := none
  continuation : Option Bool := none
  partialText : Option String := none
deriving DecidableEq, Repr

/-- The text-completion gateway as a deterministic oracle: for a given prompt
it yields the stream fragments in order and, optionally, an error raised
after those fragments were delivered. The non-streaming reply for a prompt is
the concatenation of its fragments (spec section 4.1: the concatenation of all
fragments equals what the blocking call would have returned). -/
structure Gateway where
  frags : String → List String
  err : String → Option String

/-- Blocking generation: full text, or failure when the oracle errs. -/
def Gateway.reply (g : Gateway) (m : String) : Except String String :=
  match g.err m with
  | none => .ok (String.join (g.frags m))
  | some e => .error e

/-- A gateway that never fails. -/
def Gateway.pure (f : String → List String) : Gateway := ⟨f, fun _ => none⟩

/-- Prompt wording (system instruction and recommendation template), which
the spec treats as configuration content rather than engineering. -/
structure Config where
  improvedPrompt : String
  promptTemplate : String
deriving DecidableEq, Repr

/-- Availability of the two catalog documents; `none` means the read failed. -/
structure World where
  toolInformation : Option String
  productUrls : Option String
deriving DecidableEq, Repr

/-- The partial-response object sent by the client (`{ text, phase }`); only
its `text` member is read by the server (`partialResponse.text || ""`). -/
structure PartialResponse where
  text : Option String := none
deriving DecidableEq, Repr

/-- JS `String.prototype.replace` with a string pattern replaces the first
occurrence only; an empty pattern matches at the start. -/
def replaceFirstList (pat repl : List Char) : List Char → Option (List Char)
  | [] => if pat = [] then some repl else none
  | c :: cs =>
    if pat.isPrefixOf (c :: cs) then some (repl ++ (c :: cs).drop pat.length)
    else (replaceFirstList pat repl cs).map (c :: ·)

/-- First-occurrence string replacement, JS `replace` semantics. -/
def replaceFirst (s pat repl : String) : String :=
  match replaceFirstList pat.toList repl.toList s.toList with
  | some l => ⟨l⟩
  | none => s

example : replaceFirst "a_X_b_X" "X" "Y" = "a_Y_b_X" := by decide
example : replaceFirst "ab" "Z" "Y" = "ab" := by decide

/-- Recommendation prompt: the fixed template with the project information
and the two catalog documents substituted for its three placeholders. -/
def recPrompt (cfg : Config) (projectInformation toolInformation productUrls : String) : String :=
  replaceFirst (replaceFirst (replaceFirst cfg.promptTemplate
    "\x7bproject_information\x7d" projectInformation)
    "\x7btool_information\x7d" toolInformation)
    "\x7bproduct_urls_file\x7d" productUrls

/-- Terminal error text when either catalog read fails. -/
def CATALOG_ERROR_TEXT : String :=
  "Error: Unable to access tool information or product URLs. Please try again later."

/-- The record enqueued by the catch block of a streaming handler. -/
def streamErrorRecord (msg : String) : StreamRecord :=
  { error := true, text := some ("Error in streaming response: " ++ msg), done := true }

/-- A plain fragment record (`{ chunk, done: false }`). -/
def chunkRecord (c : String) : StreamRecord := { chunk := some c }

namespace Route2

/-!
Embedding of the streaming route version in `src/unnamed/part_002`
(`app/api/tool-recommendation/route.js`): its `POST` dispatcher, the two
streaming generators and the two non-streaming handlers. Gateway output and
catalog reads are oracle inputs; a handler that would throw returns
`Except.error` so the route-level catch can be modelled in `POST`.
-/

/-- Continuation prompt of part_002 (lines 251-258 and 468-475): built from
the captured partial output only. -/
def continuationPrompt (previousOutput : String) : String :=
  "\nThe following is a partially completed response that was cut off due to a timeout.\nPlease continue the response from where it was cut off, maintaining the same format and quality.\n\nPartial response:\n"
  ++ previousOutput ++ "\n\nContinue from where the response was cut off:"

/-- part_002 `streamToolRecommendation` (lines 213-334): read both catalog
files, then stream either the continuation prompt or the substituted template;
the terminal record stitches `previousOutput + newResponseText`. -/
def streamToolRecommendation (cfg : Config) (projectInformation : String)
    (partialResponse : Option PartialResponse) (w : World) (g : Gateway) :
    List StreamRecord :=
  match w.toolInformation, w.productUrls with
  | some toolInformation, some productUrls =>
    let previousOutput := match partialResponse with
      | some pr => pr.text.getD ""
      | none => ""
    let prompt := match partialResponse with
      | some pr => continuationPrompt (pr.text.getD "")
      | none => recPrompt cfg projectInformation toolInformation productUrls
    let frags := g.frags prompt
    let chunkRecs := frags.map chunkRecord
    match g.err prompt with
    | some e => chunkRecs ++ [streamErrorRecord e]
    | none =>
      let newResponseText := frags.foldl (· ++ ·) ""
      let fullResponseText := match partialResponse with
        | some _ => previousOutput ++ newResponseText
        | none => newResponseText
      chunkRecs ++
        [{ done := true, text := some fullResponseText,
           partialText := some newResponseText }]
  | _, _ => [{ error := true, text := some CATALOG_ERROR_TEXT, done := true }]

/-- part_002 `streamInformationGathering` (lines 89-205): an empty history is
seeded by sending the system prompt (its streamed reply is not forwarded; the
seed model turn is the literal "System initialization complete"), then the
user input is streamed and the terminal record carries the updated history,
the sentinel flag and the project information. -/
def streamInformationGathering (cfg : Config) (userInput : String)
    (conversationHistory : List Turn) (g : Gateway) : List StreamRecord :=
  let seeded : Except String (List Turn) :=
    if conversationHistory.isEmpty then
      match g.reply cfg.improvedPrompt with
      | .ok _ => .ok [⟨"user", cfg.improvedPrompt⟩,
                      ⟨"model", "System initialization complete"⟩]
      | .error e => .error e
    else .ok conversationHistory
  match seeded with
  | .error e => [streamErrorRecord e]
  | .ok hist =>
    let frags := g.frags userInput
    let chunkRecs := frags.map chunkRecord
    match g.err userInput with
    | some e => chunkRecs ++ [streamErrorRecord e]
    | none =>
      let fullResponseText := frags.foldl (· ++ ·) ""
      let isComplete := includesStr fullResponseText SENTINEL
      let projectInformation := if isComplete then fullResponseText else ""
      let hist2 := hist ++ [⟨"user", userInput⟩, ⟨"model", fullResponseText⟩]
      chunkRecs ++
        [{ done := true, conversationHistory := some hist2,
           isComplete := some isComplete,
           projectInformation := some projectInformation }]

/-- part_002 `handleInformationGathering` (lines 375-434, non-streaming): an
empty history is seeded with the system prompt and its reply, then the user
turn and the model turn are appended and the sentinel is checked. -/
def handleInformationGathering (cfg : Config) (userInput : String)
    (conversationHistory : List Turn) (g : Gateway) :
    Except String JsonResult := do
  let hist ←
    if conversationHistory.isEmpty then do
      let systemResponse ← g.reply cfg.improvedPrompt
      pure [⟨"user", cfg.improvedPrompt⟩, (⟨"model", systemResponse⟩ : Turn)]
    else pure conversationHistory
  let aiOutput ← g.reply userInput
  let hist2 := hist ++ [⟨"user", userInput⟩, ⟨"model", aiOutput⟩]
  let isComplete := includesStr aiOutput SENTINEL
  pure { text := aiOutput, conversationHistory := some hist2,
         isComplete := some isComplete,
         projectInformation := some (if isComplete then aiOutput else "") }

/-- part_002 `handleToolRecommendation` (lines 442-500, non-streaming). -/
def handleToolRecommendation (cfg : Config) (projectInformation : String)
    (partialResponse : Option PartialResponse) (w : World) (g : Gateway) :
    Except String JsonResult :=
  match w.toolInformation, w.productUrls with
  | some toolInformation, some productUrls =>
    let previousOutput := match partialResponse with
      | some pr => pr.text.getD ""
      | none => ""
    let prompt := match partialResponse with
      | some pr => continuationPrompt (pr.text.getD "")
      | none => recPrompt cfg projectInformation toolInformation productUrls
    do
      let newResponseText ← g.reply prompt
      let fullResponseText := match partialResponse with
        | some _ => previousOutput ++ newResponseText
        | none => newResponseText
      pure { text := fullResponseText, partialText := some newResponseText,
             error := false }
  | _, _ => .ok { text := CATALOG_ERROR_TEXT, error := true }

/-- Request body of the route (`phase`, `userInput`, `conversationHistory`,
`projectInformation`, `streaming = false`, `partialResponse = null`). -/
structure RequestBody where
  phase : String
  userInput : String := ""
  conversationHistory : List Turn := []
  projectInformation : String := ""
  streaming : Bool := false
  partialResponse : Option PartialResponse := none
deriving DecidableEq, Repr

/-- A route response: either a stream of records or a JSON body with status. -/
inductive ApiResponse where
  | stream (records : List StreamRecord)
  | json (result : JsonResult) (status : Nat)
deriving DecidableEq, Repr

/-- part_002 `POST` (lines 14-81): dispatch on `streaming` and `phase`; a
handler exception is converted to a uniform 500 error body. -/
def POST (cfg : Config) (body : RequestBody) (w : World) (g : Gateway) :
    ApiResponse :=
  if body.streaming then
    if body.phase = "gathering" then
      .stream (streamInformationGathering cfg body.userInput
        body.conversationHistory g)
    else if body.phase = "recommendation" then
      .stream (streamToolRecommendation cfg body.projectInformation
        body.partialResponse w g)
    else
      .json { text := "Invalid phase specified for streaming. Must be \x27gathering\x27 or \x27recommendation\x27.",
              error := true } 400
  else
    if body.phase = "gathering" then
      match handleInformationGathering cfg body.userInput
          body.conversationHistory g with
      | .ok r => .json r 200
      | .error e =>
        .json { text := "An error occurred while processing your request: " ++ e,
                error := true } 500
    else if body.phase = "recommendation" then
      match handleToolRecommendation cfg body.projectInformation
          body.partialResponse w g with
      | .ok r => .json r 200
      | .error e =>
        .json { text := "An error occurred while processing your request: " ++ e,
                error := true } 500
    else
      .json { text := "Invalid phase specified. Must be \x27gathering\x27 or \x27recommendation\x27.",
              error := true } 400

end Route2

namespace Route1

/-!
Embedding of the streaming route version in `src/unnamed/part_001`: the same
route with an explicit `continuationMode` flag and a string-typed
`partialResponse`. Its gathering continuation replaces a trailing model turn
of the history by the stitched full response.
-/

/-- Continuation prompt of part_001 for the gathering phase (lines 141 and
463). -/
def continuationPromptGathering (partialResponse : String) : String :=
  "The previous response was cut off. Here was the partial response: \""
  ++ partialResponse ++ "\". Please continue from where you left off."

/-- Continuation prompt of part_001 for the recommendation phase (lines 348
and 584). -/
def continuationPromptRecommendation (partialResponse : String) : String :=
  "The previous response was cut off. Here was the partial response: \""
  ++ partialResponse ++ "\". Please continue from where you left off without repeating any content."

/-- Remove the last history entry when it is a model turn (the partial reply
being replaced by the stitched one); part_001 lines 184-189 and 479-484. -/
def popTrailingModel (h : List Turn) : List Turn :=
  match h.getLast? with
  | some t => if t.role = "model" then h.dropLast else h
  | none => h

/-- part_001 `streamInformationGathering` (lines 123-303): in continuation
mode the sentinel and the project information are evaluated on
`partialResponse + continuationResponseText`; otherwise on the streamed reply
to the user input alone. The system prompt is carried by the model
configuration (`initializeGeminiModel`), hence by the gateway oracle. -/
def streamInformationGathering (userInput : String)
    (conversationHistory : List Turn) (continuationMode : Bool)
    (partialResponse : String) (g : Gateway) : List StreamRecord :=
  if continuationMode && partialResponse != "" then
    let prompt := continuationPromptGathering partialResponse
    let frags := g.frags prompt
    let chunkRecs := frags.map
      (fun c => { chunk := some c, continuation := some true : StreamRecord })
    match g.err prompt with
    | some e => chunkRecs ++ [streamErrorRecord e]
    | none =>
      let continuationResponseText := frags.foldl (· ++ ·) ""
      let fullResponseText := partialResponse ++ continuationResponseText
      let isComplete := includesStr fullResponseText SENTINEL
      let projectInformation := if isComplete then fullResponseText else ""
      let hist2 := popTrailingModel conversationHistory
        ++ [⟨"model", fullResponseText⟩]
      chunkRecs ++
        [{ done := true, conversationHistory := some hist2,
           isComplete := some isComplete,
           projectInformation := some projectInformation,
           continuation := some true, fullResponse := some fullResponseText }]
  else
    let frags := g.frags userInput
    let chunkRecs := frags.map chunkRecord
    match g.err userInput with
    | some e => chunkRecs ++ [streamErrorRecord e]
    | none =>
      let fullResponseText := frags.foldl (· ++ ·) ""
      let isComplete := includesStr fullResponseText SENTINEL
      let projectInformation := if isComplete then fullResponseText else ""
      let hist2 := conversationHistory
        ++ [⟨"user", userInput⟩, ⟨"model", fullResponseText⟩]
      chunkRecs ++
        [{ done := true, conversationHistory := some hist2,
           isComplete := some isComplete,
           projectInformation := some projectInformation }]

/-- part_001 `streamToolRecommendation` (lines 312-423): both catalog files
are read first; the accumulated text is seeded with `partialResponse` exactly
when `continuationMode` is set. -/
def streamToolRecommendation (cfg : Config) (projectInformation : String)
    (continuationMode : Bool) (partialResponse : String) (w : World)
    (g : Gateway) : List StreamRecord :=
  match w.toolInformation, w.productUrls with
  | some toolInformation, some productUrls =>
    let prompt :=
      if continuationMode && partialResponse != "" then
        continuationPromptRecommendation partialResponse
      else recPrompt cfg projectInformation toolInformation productUrls
    let frags := g.frags prompt
    let chunkRecs := frags.map
      (fun c => { chunk := some c,
                  continuation := some continuationMode : StreamRecord })
    match g.err prompt with
    | some e => chunkRecs ++ [streamErrorRecord e]
    | none =>
      let responseText :=
        frags.foldl (· ++ ·) (if continuationMode then partialResponse else "")
      chunkRecs ++
        [{ done := true, text := some responseText,
           continuation := some continuationMode }]
  | _, _ => [{ error := true, text := some CATALOG_ERROR_TEXT, done := true }]

/-- part_001 `handleInformationGathering` (lines 449-550, non-streaming).
The system prompt is carried by the model configuration, hence by the
gateway oracle. -/
def handleInformationGathering (userInput : String)
    (conversationHistory : List Turn) (continuationMode : Bool)
    (partialResponse : String) (g : Gateway) : Except String JsonResult :=
  if continuationMode && partialResponse != "" then do
    let continuationOutput ← g.reply
      (continuationPromptGathering partialResponse)
    let aiOutput := partialResponse ++ continuationOutput
    let hist2 := popTrailingModel conversationHistory ++ [⟨"model", aiOutput⟩]
    let isComplete := includesStr aiOutput SENTINEL
    pure { text := aiOutput, conversationHistory := some hist2,
           isComplete := some isComplete,
           projectInformation := some (if isComplete then aiOutput else ""),
           continuation := some continuationMode }
  else do
    let aiOutput ← g.reply userInput
    let hist2 := conversationHistory
      ++ [⟨"user", userInput⟩, ⟨"model", aiOutput⟩]
    let isComplete := includesStr aiOutput SENTINEL
    pure { text := aiOutput, conversationHistory := some hist2,
           isComplete := some isComplete,
           projectInformation := some (if isComplete then aiOutput else ""),
           continuation := some continuationMode }

/-- part_001 `handleToolRecommendation` (lines 559-611, non-streaming). -/
def handleToolRecommendation (cfg : Config) (projectInformation : String)
    (continuationMode : Bool) (partialResponse : String) (w : World)
    (g : Gateway) : Except String JsonResult :=
  match w.toolInformation, w.productUrls with
  | some toolInformation, some productUrls =>
    if continuationMode && partialResponse != "" then do
      let continuationText ← g.reply
        (continuationPromptRecommendation partialResponse)
      pure { text := partialResponse ++ continuationText, error := false,
             continuation := some continuationMode }
    else do
      let resultText ← g.reply
        (recPrompt cfg projectInformation toolInformation productUrls)
      pure { text := resultText, error := false,
             continuation := some continuationMode }
  | _, _ => .ok { text := CATALOG_ERROR_TEXT, error := true }

end Route1

namespace Route0

/-!
Embedding of the legacy non-streaming route version in `src/unnamed/part_000`
(`app/api/tool-recommendation/route.js`): a string-typed conversation context
and a `fetchGeminiResponse` helper that converts every upstream failure into
a fallback text instead of propagating an error.
-/

/-- Fallback text returned by `fetchGeminiResponse` on any upstream failure
(part_000 line 195). -/
def FALLBACK_TEXT : String := "Error generating response. Please try again."

/-- part_000 `fetchGeminiResponse` (lines 163-197): a non-2xx status, an
empty candidate list or a thrown error are all caught and replaced by the
fallback text; success returns the candidate text. -/
def fetchGeminiResponse (upstream : Except String String) : String :=
  match upstream with
  | .ok t => t
  | .error _ => FALLBACK_TEXT

/-- Default first user message when none was supplied (part_000 line 84). -/
def DEFAULT_GREETING : String := "Hello! I\x27d like to discuss my project."

/-- Context extension before the gateway call (part_000 lines 81-89): a new
conversation is seeded with the system prompt, otherwise the user turn is
appended. -/
def extendContext (cfg : Config) (userInput conversationContext : String) :
    String :=
  if conversationContext = "" then
    "System:\n" ++ cfg.improvedPrompt ++ "\n\n"
    ++ "User: " ++ (if userInput = "" then DEFAULT_GREETING else userInput)
    ++ "\n"
  else conversationContext ++ "\nUser: " ++ userInput ++ "\n"

/-- part_000 `handleInformationGathering` (lines 79-118): the gateway reply
(or the fallback text) is sentinel-checked against `"FINAL SUMMARY"` and
appended to the conversation context as an `AI:` turn. -/
def handleInformationGathering (cfg : Config)
    (userInput conversationContext : String)
    (upstream : Except String String) : JsonResult :=
  let ctx1 := extendContext cfg userInput conversationContext
  let aiOutput := fetchGeminiResponse upstream
  let isComplete := includesStr aiOutput LEGACY_SENTINEL
  { text := aiOutput,
    conversationContext := some (ctx1 ++ "\nAI: " ++ aiOutput ++ "\n"),
    isComplete := some isComplete,
    projectInformation := some (if isComplete then aiOutput else "") }

end Route0

namespace Client

/-!
Embedding of the phase bookkeeping of the client
(`src/src/app/components/ToolHireChatbot.jsx`, `handleSendMessage` lines
586-625): after a stream completes, the phase switches to "recommendation"
exactly when the `isComplete` of the terminal record is truthy while the phase is
still "gathering".
-/

/-- One client update from a terminal stream record (`completeData`). -/
def clientStep (phase : String) (completeData : StreamRecord) : String :=
  if completeData.isComplete.getD false && phase == "gathering" then
    "recommendation"
  else phase

/-- The sequence of phase values after each terminal record is processed. -/
def phaseTrace (phase : String) : List StreamRecord → List String
  | [] => []
  | d :: ds =>
    let p := clientStep phase d
    p :: phaseTrace p ds

/-- Number of gathering-to-recommendation switches along a phase trace that
starts from `phase`. -/
def countTransitions (phase : String) : List String → Nat
  | [] => 0
  | p :: ps =>
    (if phase = "gathering" ∧ p = "recommendation" then 1 else 0)
    + countTransitions p ps

end Client

/-- A record with `done = false` that carries a chunk fragment and none of
the terminal-state payload fields. -/
def chunkOnly (r : StreamRecord) : Prop :=
  r.done = false ∧ r.error = false ∧ r.chunk.isSome = true ∧
  r.text = none ∧ r.conversationHistory = none ∧ r.isComplete = none ∧
  r.projectInformation = none ∧ r.fullResponse = none ∧ r.partialText = none

/-- A stream whose records end in exactly one `done = true` record, every
earlier record being a pure chunk record. -/
def terminalDiscipline (rs : List StreamRecord) : Prop :=
  ∃ pre last, rs = pre ++ [last] ∧ last.done = true ∧ ∀ r ∈ pre, chunkOnly r

/-- A small concrete prompt configuration for closed instances. -/
def cfgA : Config := { improvedPrompt := "SYS", promptTemplate := "TPL" }

theorem foldl_append_join (l : List String) (s : String) :
    l.foldl (· ++ ·) s = s ++ String.join l := by
  induction l generalizing s with
  | nil =>
    apply String.ext
    simp
  | cons a t ih =>
    rw [List.foldl_cons, ih]
    apply String.ext
    simp [String.data_append]

theorem sentinel_needs_content (s : String)
    (h : includesStr s SENTINEL = true) : s ≠ "" := by
  intro he
  subst he
  exact absurd h (by decide)

theorem r1_handleIG_eq_cont (u p : String) (cm : Bool) (h : List Turn)
    (f : String → List String) (hc : (cm && p != "") = true) :
    Route1.handleInformationGathering u h cm p (Gateway.pure f)
      = .ok { text := p ++ String.join (f (Route1.continuationPromptGathering p)),
              conversationHistory := some (Route1.popTrailingModel h
                ++ [⟨"model",
                  p ++ String.join (f (Route1.continuationPromptGathering p))⟩]),
              isComplete := some (includesStr
                (p ++ String.join (f (Route1.continuationPromptGathering p)))
                SENTINEL),
              projectInformation := some (if includesStr
                  (p ++ String.join (f (Route1.continuationPromptGathering p)))
                  SENTINEL then
                p ++ String.join (f (Route1.continuationPromptGathering p))
                else ""),
              continuation := some cm } := by
  simp [Route1.handleInformationGathering, hc, Gateway.pure, Gateway.reply]

theorem r1_handleIG_eq_norm (u p : String) (cm : Bool) (h : List Turn)
    (f : String → List String) (hc : (cm && p != "") = false) :
    Route1.handleInformationGathering u h cm p (Gateway.pure f)
      = .ok { text := String.join (f u),
              conversationHistory := some (h
                ++ [⟨"user", u⟩, ⟨"model", String.join (f u)⟩]),
              isComplete := some (includesStr (String.join (f u)) SENTINEL),
              projectInformation := some
                (if includesStr (String.join (f u)) SENTINEL then
                  String.join (f u) else ""),
              continuation := some cm } := by
  simp [Route1.handleInformationGathering, hc, Gateway.pure, Gateway.reply]

theorem r1_streamIG_eq_cont (u p : String) (cm : Bool) (h : List Turn)
    (f : String → List String) (hc : (cm && p != "") = true) :
    Route1.streamInformationGathering u h cm p (Gateway.pure f)
      = (f (Route1.continuationPromptGathering p)).map (fun c =>
          { chunk := some c, continuation := some true : StreamRecord })
        ++ [{ done := true,
              conversationHistory := some (Route1.popTrailingModel h
                ++ [⟨"model",
                  p ++ String.join (f (Route1.continuationPromptGathering p))⟩]),
              isComplete := some (includesStr
                (p ++ String.join (f (Route1.continuationPromptGathering p)))
                SENTINEL),
              projectInformation := some (if includesStr
                  (p ++ String.join (f (Route1.continuationPromptGathering p)))
                  SENTINEL then
                p ++ String.join (f (Route1.continuationPromptGathering p))
                else ""),
              continuation := some true,
              fullResponse := some (p ++ String.join
                (f (Route1.continuationPromptGathering p))) }] := by
  simp [Route1.streamInformationGathering, hc, Gateway.pure,
    foldl_append_join]

theorem r1_streamIG_eq_norm (u p : String) (cm : Bool) (h : List Turn)
    (f : String → List String) (hc : (cm && p != "") = false) :
    Route1.streamInformationGathering u h cm p (Gateway.pure f)
      = (f u).map chunkRecord
        ++ [{ done := true,
              conversationHistory := some (h
                ++ [⟨"user", u⟩, ⟨"model", String.join (f u)⟩]),
              isComplete := some (includesStr (String.join (f u)) SENTINEL),
              projectInformation := some
                (if includesStr (String.join (f u)) SENTINEL then
                  String.join (f u) else "") }] := by
  simp [Route1.streamInformationGathering, hc, Gateway.pure,
    foldl_append_join]

theorem r2_handleIG_eq (cfg : Config) (u : String) (h : List Turn)
    (f : String → List String) :
    Route2.handleInformationGathering cfg u h (Gateway.pure f)
      = .ok { text := String.join (f u),
              conversationHistory := some ((if h.isEmpty then
                  [⟨"user", cfg.improvedPrompt⟩,
                   ⟨"model", String.join (f cfg.improvedPrompt)⟩]
                else h) ++ [⟨"user", u⟩, ⟨"model", String.join (f u)⟩]),
              isComplete := some (includesStr (String.join (f u)) SENTINEL),
              projectInformation := some
                (if includesStr (String.join (f u)) SENTINEL then
                  String.join (f u) else "") } := by
  by_cases he : h.isEmpty
  · simp only [Route2.handleInformationGathering, he, Gateway.pure,
      Gateway.reply, if_true]
    rfl
  · simp [Route2.handleInformationGathering, he, Gateway.pure, Gateway.reply]

theorem r2_streamIG_eq (cfg : Config) (u : String) (h : List Turn)
    (f : String → List String) :
    Route2.streamInformationGathering cfg u h (Gateway.pure f)
      = (f u).map chunkRecord
        ++ [{ done := true,
              conversationHistory := some ((if h.isEmpty then
                  [⟨"user", cfg.improvedPrompt⟩,
                   ⟨"model", "System initialization complete"⟩]
                else h) ++ [⟨"user", u⟩, ⟨"model", String.join (f u)⟩]),
              isComplete := some (includesStr (String.join (f u)) SENTINEL),
              projectInformation := some
                (if includesStr (String.join (f u)) SENTINEL then
                  String.join (f u) else "") }] := by
  by_cases he : h.isEmpty
  · simp [Route2.streamInformationGathering, he, Gateway.pure, Gateway.reply,
      foldl_append_join]
  · simp [Route2.streamInformationGathering, he, Gateway.pure, Gateway.reply,
      foldl_append_join]

theorem r2_streamTR_eq_cont (cfg : Config) (pi : String)
    (pr : PartialResponse) (ti urls : String) (f : String → List String) :
    Route2.streamToolRecommendation cfg pi (some pr) ⟨some ti, some urls⟩
        (Gateway.pure f)
      = (f (Route2.continuationPrompt (pr.text.getD ""))).map chunkRecord
        ++ [{ done := true,
              text := some (pr.text.getD "" ++ String.join
                (f (Route2.continuationPrompt (pr.text.getD "")))),
              partialText := some (String.join
                (f (Route2.continuationPrompt (pr.text.getD "")))) }] := by
  simp [Route2.streamToolRecommendation, Gateway.pure, foldl_append_join]

theorem r2_streamTR_eq_norm (cfg : Config) (pi ti urls : String)
    (f : String → List String) :
    Route2.streamToolRecommendation cfg pi none ⟨some ti, some urls⟩
        (Gateway.pure f)
      = (f (recPrompt cfg pi ti urls)).map chunkRecord
        ++ [{ done := true,
              text := some (String.join (f (recPrompt cfg pi ti urls))),
              partialText := some (String.join
                (f (recPrompt cfg pi ti urls))) }] := by
  simp [Route2.streamToolRecommendation, Gateway.pure, foldl_append_join]

theorem r2_streamTR_eq_fail (cfg : Config) (pi : String)
    (pr : Option PartialResponse) (w : World) (g : Gateway)
    (hw : w.toolInformation = none ∨ w.productUrls = none) :
    Route2.streamToolRecommendation cfg pi pr w g
      = [{ error := true, text := some CATALOG_ERROR_TEXT, done := true }] := by
  obtain ⟨ti, urls⟩ := w
  rcases hw with hw | hw
  · simp only at hw
    subst hw
    cases urls <;> rfl
  · simp only at hw
    subst hw
    cases ti <;> rfl

theorem r2_handleTR_eq_cont (cfg : Config) (pi : String)
    (pr : PartialResponse) (ti urls : String) (f : String → List String) :
    Route2.handleToolRecommendation cfg pi (some pr) ⟨some ti, some urls⟩
        (Gateway.pure f)
      = .ok { text := pr.text.getD "" ++ String.join
                (f (Route2.continuationPrompt (pr.text.getD ""))),
              partialText := some (String.join
                (f (Route2.continuationPrompt (pr.text.getD "")))),
              error := false } := by
  simp [Route2.handleToolRecommendation, Gateway.pure, Gateway.reply]

theorem r2_handleTR_eq_norm (cfg : Config) (pi ti urls : String)
    (f : String → List String) :
    Route2.handleToolRecommendation cfg pi none ⟨some ti, some urls⟩
        (Gateway.pure f)
      = .ok { text := String.join (f (recPrompt cfg pi ti urls)),
              partialText := some (String.join (f (recPrompt cfg pi ti urls))),
              error := false } := by
  simp [Route2.handleToolRecommendation, Gateway.pure, Gateway.reply]

theorem r2_handleTR_eq_fail (cfg : Config) (pi : String)
    (pr : Option PartialResponse) (w : World) (g : Gateway)
    (hw : w.toolInformation = none ∨ w.productUrls = none) :
    Route2.handleToolRecommendation cfg pi pr w g
      = .ok { text := CATALOG_ERROR_TEXT, error := true } := by
  obtain ⟨ti, urls⟩ := w
  rcases hw with hw | hw
  · simp only at hw
    subst hw
    cases urls <;> rfl
  · simp only at hw
    subst hw
    cases ti <;> rfl

theorem r1_streamTR_eq_cont (cfg : Config) (pi p : String) (cm : Bool)
    (ti urls : String) (f : String → List String)
    (hc : (cm && p != "") = true) :
    Route1.streamToolRecommendation cfg pi cm p ⟨some ti, some urls⟩
        (Gateway.pure f)
      = (f (Route1.continuationPromptRecommendation p)).map (fun c =>
          { chunk := some c, continuation := some cm : StreamRecord })
        ++ [{ done := true,
              text := some ((if cm then p else "") ++ String.join
                (f (Route1.continuationPromptRecommendation p))),
              continuation := some cm }] := by
  simp [Route1.streamToolRecommendation, hc, Gateway.pure, foldl_append_join]

theorem r1_streamTR_eq_norm (cfg : Config) (pi p : String) (cm : Bool)
    (ti urls : String) (f : String → List String)
    (hc : (cm && p != "") = false) :
    Route1.streamToolRecommendation cfg pi cm p ⟨some ti, some urls⟩
        (Gateway.pure f)
      = (f (recPrompt cfg pi ti urls)).map (fun c =>
          { chunk := some c, continuation := some cm : StreamRecord })
        ++ [{ done := true,
              text := some ((if cm then p else "") ++ String.join
                (f (recPrompt cfg pi ti urls))),
              continuation := some cm }] := by
  simp [Route1.streamToolRecommendation, hc, Gateway.pure, foldl_append_join]

theorem r1_streamTR_eq_fail (cfg : Config) (pi p : String) (cm : Bool)
    (w : World) (g : Gateway)
    (hw : w.toolInformation = none ∨ w.productUrls = none) :
    Route1.streamToolRecommendation cfg pi cm p w g
      = [{ error := true, text := some CATALOG_ERROR_TEXT, done := true }] := by
  obtain ⟨ti, urls⟩ := w
  rcases hw with hw | hw
  · simp only at hw
    subst hw
    cases urls <;> rfl
  · simp only at hw
    subst hw
    cases ti <;> rfl

theorem r1_handleTR_eq_cont (cfg : Config) (pi p : String) (cm : Bool)
    (ti urls : String) (f : String → List String)
    (hc : (cm && p != "") = true) :
    Route1.handleToolRecommendation cfg pi cm p ⟨some ti, some urls⟩
        (Gateway.pure f)
      = .ok { text := p ++ String.join
                (f (Route1.continuationPromptRecommendation p)),
              error := false, continuation := some cm } := by
  simp [Route1.handleToolRecommendation, hc, Gateway.pure, Gateway.reply]

theorem r1_handleTR_eq_norm (cfg : Config) (pi p : String) (cm : Bool)
    (ti urls : String) (f : String → List String)
    (hc : (cm && p != "") = false) :
    Route1.handleToolRecommendation cfg pi cm p ⟨some ti, some urls⟩
        (Gateway.pure f)
      = .ok { text := String.join (f (recPrompt cfg pi ti urls)),
              error := false, continuation := some cm } := by
  simp [Route1.handleToolRecommendation, hc, Gateway.pure, Gateway.reply]

theorem r1_handleTR_eq_fail (cfg : Config) (pi p : String) (cm : Bool)
    (w : World) (g : Gateway)
    (hw : w.toolInformation = none ∨ w.productUrls = none) :
    Route1.handleToolRecommendation cfg pi cm p w g
      = .ok { text := CATALOG_ERROR_TEXT, error := true } := by
  obtain ⟨ti, urls⟩ := w
  rcases hw with hw | hw
  · simp only at hw
    subst hw
    cases urls <;> rfl
  · simp only at hw
    subst hw
    cases ti <;> rfl

/-- C1. Stitch correctness: in a continuation run of either streaming
recommendation handler with captured partial text `p` and continuation
fragments `cs` received in order, the stream is the chunk records of `cs`
followed by a single terminal record whose `text` field is exactly
`p ++ c1 ++ ... ++ cn`, with no separator and no boundary modification
(part_002 `streamToolRecommendation` stitches
`previousOutput + newResponseText`; part_001 seeds the accumulator with
`partialResponse`). -/
theorem stitch_correctness_C1 (cfg : Config) (projectInformation p : String)
    (ti urls : String) (cs : List String) :
    (Route2.streamToolRecommendation cfg projectInformation
        (some { text := some p }) ⟨some ti, some urls⟩
        (Gateway.pure fun _ => cs)
      = cs.map chunkRecord
        ++ [{ done := true, text := some (p ++ String.join cs),
              partialText := some (String.join cs) }])
    ∧ (Route1.streamToolRecommendation cfg projectInformation true p
        ⟨some ti, some urls⟩ (Gateway.pure fun _ => cs)
      = cs.map (fun c =>
            { chunk := some c, continuation := some true : StreamRecord })
        ++ [{ done := true, text := some (p ++ String.join cs),
              continuation := some true }]) := by
  constructor
  · simp [Route2.streamToolRecommendation, Gateway.pure, foldl_append_join]
  · simp [Route1.streamToolRecommendation, Gateway.pure, foldl_append_join]

/-- C2. Completion detection under continuation: a gathering-phase
continuation request (part_001, streaming and non-streaming) with partial
text `p` and continuation fragments `cs` computes `isComplete` from the
stitched text `p ++ join cs` — not from the continuation output alone — and
sets `projectInformation` to that stitched text when complete, so a sentinel
split across the interruption boundary is still detected. -/
theorem completion_detection_C2 (u p : String) (h : List Turn)
    (cs : List String) (hp : p ≠ "") :
    (Route1.streamInformationGathering u h true p (Gateway.pure fun _ => cs)
      = cs.map (fun c =>
            { chunk := some c, continuation := some true : StreamRecord })
        ++ [{ done := true,
              conversationHistory := some (Route1.popTrailingModel h
                ++ [⟨"model", p ++ String.join cs⟩]),
              isComplete := some (includesStr (p ++ String.join cs) SENTINEL),
              projectInformation :=
                some (if includesStr (p ++ String.join cs) SENTINEL then
                  p ++ String.join cs else ""),
              continuation := some true,
              fullResponse := some (p ++ String.join cs) }])
    ∧ (Route1.handleInformationGathering u h true p (Gateway.pure fun _ => cs)
      = .ok { text := p ++ String.join cs,
              conversationHistory := some (Route1.popTrailingModel h
                ++ [⟨"model", p ++ String.join cs⟩]),
              isComplete := some (includesStr (p ++ String.join cs) SENTINEL),
              projectInformation :=
                some (if includesStr (p ++ String.join cs) SENTINEL then
                  p ++ String.join cs else ""),
              continuation := some true }) := by
  constructor
  · simp [Route1.streamInformationGathering, Gateway.pure, foldl_append_join,
      hp]
  · simp [Route1.handleInformationGathering, Gateway.pure, Gateway.reply, hp]

/-- C2 witness: interrupting exactly inside the sentinel (`"## FINAL"`
captured, `" SUMMARY ##"` streamed by the continuation) still completes the
phase, with the stitched sentinel as project information. -/
theorem completion_detection_C2_witness :
    ("## FINAL" : String) ≠ ""
    ∧ Route1.streamInformationGathering "" [] true "## FINAL"
        (Gateway.pure fun _ => [" SUMMARY ##"])
      = [{ chunk := some " SUMMARY ##", continuation := some true },
         { done := true,
           conversationHistory := some [⟨"model", "## FINAL SUMMARY ##"⟩],
           isComplete := some true,
           projectInformation := some "## FINAL SUMMARY ##",
           continuation := some true,
           fullResponse := some "## FINAL SUMMARY ##" }] := by
  refine ⟨by decide, ?_⟩
  have h := (completion_detection_C2 "" "## FINAL" [] [" SUMMARY ##"]
    (by decide)).1
  rw [h]
  decide

/-- C3 counterexample: the legacy route version (part_000,
`handleInformationGathering`) marks the gathering phase complete on an output
equal to `"FINAL SUMMARY"`, which does not contain the exact sentinel
`"## FINAL SUMMARY ##"` — so the claim "isComplete iff the output contains
the exact fixed sentinel" is false for that gathering-phase handler. -/
theorem phase_guard_C3_counterexample :
    (Route0.handleInformationGathering cfgA "hi" "CTX"
        (.ok "FINAL SUMMARY")).isComplete = some true
    ∧ includesStr "FINAL SUMMARY" SENTINEL = false := by
  exact ⟨by decide, by decide⟩

/-- C3 amended. Phase-completion guard: in the streaming route versions
(part_001 and part_002, streaming and non-streaming, continuation or not) the
returned `isComplete` flag is true iff the generated output text contains the
exact sentinel `"## FINAL SUMMARY ##"`; the legacy route version (part_000)
instead sets it iff the output contains the bare substring
`"FINAL SUMMARY"`. -/
theorem phase_guard_C3_amended :
    (∀ (u p : String) (cm : Bool) (h : List Turn) (f : String → List String),
      ∃ r, Route1.handleInformationGathering u h cm p (Gateway.pure f)
          = .ok r ∧ r.isComplete = some (includesStr r.text SENTINEL))
    ∧ (∀ (cfg : Config) (u : String) (h : List Turn)
        (f : String → List String),
      ∃ r, Route2.handleInformationGathering cfg u h (Gateway.pure f)
          = .ok r ∧ r.isComplete = some (includesStr r.text SENTINEL))
    ∧ (∀ (u p : String) (cm : Bool) (h : List Turn)
        (f : String → List String),
      ∃ pre rec t, Route1.streamInformationGathering u h cm p (Gateway.pure f)
          = pre ++ [rec]
        ∧ rec.isComplete = some (includesStr t SENTINEL)
        ∧ (rec.conversationHistory.getD []).getLast? = some ⟨"model", t⟩)
    ∧ (∀ (cfg : Config) (u : String) (h : List Turn)
        (f : String → List String),
      ∃ pre rec t, Route2.streamInformationGathering cfg u h (Gateway.pure f)
          = pre ++ [rec]
        ∧ rec.isComplete = some (includesStr t SENTINEL)
        ∧ (rec.conversationHistory.getD []).getLast? = some ⟨"model", t⟩)
    ∧ (∀ (cfg : Config) (u ctx : String) (up : Except String String),
      (Route0.handleInformationGathering cfg u ctx up).isComplete
          = some (includesStr (Route0.fetchGeminiResponse up) LEGACY_SENTINEL)
        ∧ (Route0.handleInformationGathering cfg u ctx up).text
          = Route0.fetchGeminiResponse up) := by
  refine ⟨?_, ?_, ?_, ?_, ?_⟩
  · intro u p cm h f
    cases hc : (cm && p != "")
    · rw [r1_handleIG_eq_norm u p cm h f hc]
      exact ⟨_, rfl, rfl⟩
    · rw [r1_handleIG_eq_cont u p cm h f hc]
      exact ⟨_, rfl, rfl⟩
  · intro cfg u h f
    rw [r2_handleIG_eq cfg u h f]
    exact ⟨_, rfl, rfl⟩
  · intro u p cm h f
    cases hc : (cm && p != "")
    · rw [r1_streamIG_eq_norm u p cm h f hc]
      refine ⟨_, _, _, rfl, rfl, ?_⟩
      show (h ++ [⟨"user", u⟩, ⟨"model", String.join (f u)⟩] :
        List Turn).getLast? = _
      rw [show (h ++ [(⟨"user", u⟩ : Turn), ⟨"model", String.join (f u)⟩]) =
        (h ++ [⟨"user", u⟩]) ++ [⟨"model", String.join (f u)⟩] by simp]
      exact List.getLast?_concat _
    · rw [r1_streamIG_eq_cont u p cm h f hc]
      refine ⟨_, _, _, rfl, rfl, ?_⟩
      exact List.getLast?_concat _
  · intro cfg u h f
    rw [r2_streamIG_eq cfg u h f]
    refine ⟨_, _, String.join (f u), rfl, rfl, ?_⟩
    show ((if h.isEmpty then _ else h) ++
      [(⟨"user", u⟩ : Turn), ⟨"model", String.join (f u)⟩]).getLast? = _
    rw [show ((if h.isEmpty then [(⟨"user", cfg.improvedPrompt⟩ : Turn),
        ⟨"model", "System initialization complete"⟩] else h) ++
        [(⟨"user", u⟩ : Turn), ⟨"model", String.join (f u)⟩]) =
      ((if h.isEmpty then [⟨"user", cfg.improvedPrompt⟩,
        ⟨"model", "System initialization complete"⟩] else h) ++
        [⟨"user", u⟩]) ++ [⟨"model", String.join (f u)⟩] by simp]
    exact List.getLast?_concat _
  · intro cfg u ctx up
    exact ⟨rfl, rfl⟩

theorem projInfo_invariant_aux (X : String) :
    (some (includesStr X SENTINEL) = some true →
      some (if includesStr X SENTINEL then X else "") = some X ∧ X ≠ "")
    ∧ (some (includesStr X SENTINEL) = some false →
      some (if includesStr X SENTINEL then X else "") = some "") := by
  constructor
  · intro hic
    have hb : includesStr X SENTINEL = true := Option.some.inj hic
    rw [if_pos hb]
    exact ⟨rfl, sentinel_needs_content X hb⟩
  · intro hic
    have hb : includesStr X SENTINEL = false := Option.some.inj hic
    rw [if_neg (by simp [hb])]

/-- C4. ProjectInformation invariant: every result of a gathering-phase
handler of the streaming route versions (part_001 and part_002, streaming or
not, continuation or not) carries a non-empty `projectInformation` exactly
when `isComplete` is true, and in that case it equals the full generated
output text (the `text` field, respectively the text carried by the final
model turn of the stream). -/
theorem projectInformation_invariant_C4 :
    (∀ (u p : String) (cm : Bool) (h : List Turn) (f : String → List String),
      ∃ r, Route1.handleInformationGathering u h cm p (Gateway.pure f)
          = .ok r
        ∧ (r.isComplete = some true →
            r.projectInformation = some r.text ∧ r.text ≠ "")
        ∧ (r.isComplete = some false → r.projectInformation = some ""))
    ∧ (∀ (cfg : Config) (u : String) (h : List Turn)
        (f : String → List String),
      ∃ r, Route2.handleInformationGathering cfg u h (Gateway.pure f)
          = .ok r
        ∧ (r.isComplete = some true →
            r.projectInformation = some r.text ∧ r.text ≠ "")
        ∧ (r.isComplete = some false → r.projectInformation = some ""))
    ∧ (∀ (u p : String) (cm : Bool) (h : List Turn)
        (f : String → List String),
      ∃ pre rec t, Route1.streamInformationGathering u h cm p (Gateway.pure f)
          = pre ++ [rec]
        ∧ (rec.conversationHistory.getD []).getLast? = some ⟨"model", t⟩
        ∧ (rec.isComplete = some true →
            rec.projectInformation = some t ∧ t ≠ "")
        ∧ (rec.isComplete = some false → rec.projectInformation = some ""))
    ∧ (∀ (cfg : Config) (u : String) (h : List Turn)
        (f : String → List String),
      ∃ pre rec t, Route2.streamInformationGathering cfg u h (Gateway.pure f)
          = pre ++ [rec]
        ∧ (rec.conversationHistory.getD []).getLast? = some ⟨"model", t⟩
        ∧ (rec.isComplete = some true →
            rec.projectInformation = some t ∧ t ≠ "")
        ∧ (rec.isComplete = some false →
            rec.projectInformation = some "")) := by
  refine ⟨?_, ?_, ?_, ?_⟩
  · intro u p cm h f
    cases hc : (cm && p != "")
    · rw [r1_handleIG_eq_norm u p cm h f hc]
      exact ⟨_, rfl, (projInfo_invariant_aux _).1, (projInfo_invariant_aux _).2⟩
    · rw [r1_handleIG_eq_cont u p cm h f hc]
      exact ⟨_, rfl, (projInfo_invariant_aux _).1, (projInfo_invariant_aux _).2⟩
  · intro cfg u h f
    rw [r2_handleIG_eq cfg u h f]
    exact ⟨_, rfl, (projInfo_invariant_aux _).1, (projInfo_invariant_aux _).2⟩
  · intro u p cm h f
    cases hc : (cm && p != "")
    · rw [r1_streamIG_eq_norm u p cm h f hc]
      refine ⟨_, _, String.join (f u), rfl, ?_,
        (projInfo_invariant_aux _).1, (projInfo_invariant_aux _).2⟩
      show (h ++ [⟨"user", u⟩, ⟨"model", String.join (f u)⟩] :
        List Turn).getLast? = _
      rw [show (h ++ [(⟨"user", u⟩ : Turn), ⟨"model", String.join (f u)⟩]) =
        (h ++ [⟨"user", u⟩]) ++ [⟨"model", String.join (f u)⟩] by simp]
      exact List.getLast?_concat _
    · rw [r1_streamIG_eq_cont u p cm h f hc]
      exact ⟨_, _, _, rfl, List.getLast?_concat _,
        (projInfo_invariant_aux _).1, (projInfo_invariant_aux _).2⟩
  · intro cfg u h f
    rw [r2_streamIG_eq cfg u h f]
    refine ⟨_, _, String.join (f u), rfl, ?_,
      (projInfo_invariant_aux _).1, (projInfo_invariant_aux _).2⟩
    show ((if h.isEmpty then _ else h) ++
      [(⟨"user", u⟩ : Turn), ⟨"model", String.join (f u)⟩]).getLast? = _
    rw [show ((if h.isEmpty then [(⟨"user", cfg.improvedPrompt⟩ : Turn),
        ⟨"model", "System initialization complete"⟩] else h) ++
        [(⟨"user", u⟩ : Turn), ⟨"model", String.join (f u)⟩]) =
      ((if h.isEmpty then [⟨"user", cfg.improvedPrompt⟩,
        ⟨"model", "System initialization complete"⟩] else h) ++
        [⟨"user", u⟩]) ++ [⟨"model", String.join (f u)⟩] by simp]
    exact List.getLast?_concat _

/-- C5 counterexample: the part_002 non-streaming gathering handler, given the
empty input history and user input `"hi"`, returns a history of four turns
whose first is the system-prompt turn — not the input history with exactly
the user turn and the model turn appended. -/
theorem conversation_postcondition_C5_counterexample :
    Route2.handleInformationGathering cfgA "hi" [] (Gateway.pure fun _ => ["T"])
      = .ok { text := "T",
              conversationHistory := some [⟨"user", "SYS"⟩, ⟨"model", "T"⟩,
                ⟨"user", "hi"⟩, ⟨"model", "T"⟩],
              isComplete := some false, projectInformation := some "" }
    ∧ ([(⟨"user", "SYS"⟩ : Turn), ⟨"model", "T"⟩, ⟨"user", "hi"⟩,
        ⟨"model", "T"⟩] ≠ [⟨"user", "hi"⟩, ⟨"model", "T"⟩]) := by
  exact ⟨by rfl, by decide⟩

/-- C5 amended. Conversation-state postcondition: for a non-continuation
gathering request that produces output `t`, the part_001 handlers (streaming
and not) return exactly `h ++ [user u, model t]` for every input history
`h`; the part_002 handlers do the same for a non-empty `h` but first seed an
empty history with the system-prompt exchange; part_001 continuation
requests instead drop a trailing model turn of `h` and append only the model
turn for the stitched text. In all cases the retained prefix of `h` is
unmodified. -/
theorem conversation_postcondition_C5_amended :
    (∀ (u p : String) (h : List Turn) (f : String → List String),
      ∃ r, Route1.handleInformationGathering u h false p (Gateway.pure f)
          = .ok r
        ∧ r.conversationHistory
          = some (h ++ [⟨"user", u⟩, ⟨"model", r.text⟩]))
    ∧ (∀ (u p : String) (h : List Turn) (f : String → List String),
      ∃ pre rec t, Route1.streamInformationGathering u h false p
            (Gateway.pure f) = pre ++ [rec]
        ∧ rec.conversationHistory
          = some (h ++ [⟨"user", u⟩, ⟨"model", t⟩]))
    ∧ (∀ (cfg : Config) (u : String) (h : List Turn)
        (f : String → List String),
      ∃ r, Route2.handleInformationGathering cfg u h (Gateway.pure f) = .ok r
        ∧ r.conversationHistory = some ((if h.isEmpty then
            [⟨"user", cfg.improvedPrompt⟩,
             ⟨"model", String.join (f cfg.improvedPrompt)⟩]
          else h) ++ [⟨"user", u⟩, ⟨"model", r.text⟩]))
    ∧ (∀ (cfg : Config) (u : String) (h : List Turn)
        (f : String → List String),
      ∃ pre rec t, Route2.streamInformationGathering cfg u h (Gateway.pure f)
          = pre ++ [rec]
        ∧ rec.conversationHistory = some ((if h.isEmpty then
            [⟨"user", cfg.improvedPrompt⟩,
             ⟨"model", "System initialization complete"⟩]
          else h) ++ [⟨"user", u⟩, ⟨"model", t⟩]))
    ∧ (∀ (u p : String) (h : List Turn) (f : String → List String), p ≠ "" →
      ∃ r, Route1.handleInformationGathering u h true p (Gateway.pure f)
          = .ok r
        ∧ r.conversationHistory
          = some (Route1.popTrailingModel h ++ [⟨"model", r.text⟩])) := by
  refine ⟨?_, ?_, ?_, ?_, ?_⟩
  · intro u p h f
    rw [r1_handleIG_eq_norm u p false h f (by simp)]
    exact ⟨_, rfl, rfl⟩
  · intro u p h f
    rw [r1_streamIG_eq_norm u p false h f (by simp)]
    exact ⟨_, _, _, rfl, rfl⟩
  · intro cfg u h f
    rw [r2_handleIG_eq cfg u h f]
    exact ⟨_, rfl, rfl⟩
  · intro cfg u h f
    rw [r2_streamIG_eq cfg u h f]
    exact ⟨_, _, _, rfl, rfl⟩
  · intro u p h f hp
    rw [r1_handleIG_eq_cont u p true h f (by simp [hp])]
    exact ⟨_, rfl, rfl⟩

/-- C6. Catalog failure handling (part_002): if either catalog read fails, a
recommendation-phase request yields exactly one `{error: true, text:
"try again later"}` record (stream) or that JSON body (non-streaming),
independent of the gateway — so no generation call can influence the result —
while `POST` dispatches gathering-phase requests to handlers that take no
catalog input, so any two catalog states give the identical response. -/
theorem catalog_failure_C6 :
    (∀ (cfg : Config) (pi : String) (pr : Option PartialResponse)
        (urls : Option String) (g : Gateway),
      Route2.streamToolRecommendation cfg pi pr ⟨none, urls⟩ g
        = [{ error := true, text := some CATALOG_ERROR_TEXT, done := true }])
    ∧ (∀ (cfg : Config) (pi ti : String) (pr : Option PartialResponse)
        (g : Gateway),
      Route2.streamToolRecommendation cfg pi pr ⟨some ti, none⟩ g
        = [{ error := true, text := some CATALOG_ERROR_TEXT, done := true }])
    ∧ (∀ (cfg : Config) (pi : String) (pr : Option PartialResponse)
        (urls : Option String) (g : Gateway),
      Route2.handleToolRecommendation cfg pi pr ⟨none, urls⟩ g
        = .ok { text := CATALOG_ERROR_TEXT, error := true })
    ∧ (∀ (cfg : Config) (pi ti : String) (pr : Option PartialResponse)
        (g : Gateway),
      Route2.handleToolRecommendation cfg pi pr ⟨some ti, none⟩ g
        = .ok { text := CATALOG_ERROR_TEXT, error := true })
    ∧ (∀ (cfg : Config) (body : Route2.RequestBody) (w w' : World)
        (g : Gateway), body.phase = "gathering" →
      Route2.POST cfg body w g = Route2.POST cfg body w' g) := by
  refine ⟨?_, ?_, ?_, ?_, ?_⟩
  · intro cfg pi pr urls g
    exact r2_streamTR_eq_fail cfg pi pr ⟨none, urls⟩ g (Or.inl rfl)
  · intro cfg pi ti pr g
    exact r2_streamTR_eq_fail cfg pi pr ⟨some ti, none⟩ g (Or.inr rfl)
  · intro cfg pi pr urls g
    exact r2_handleTR_eq_fail cfg pi pr ⟨none, urls⟩ g (Or.inl rfl)
  · intro cfg pi ti pr g
    exact r2_handleTR_eq_fail cfg pi pr ⟨some ti, none⟩ g (Or.inr rfl)
  · intro cfg body w w2 g hp
    by_cases hs : body.streaming <;> simp [Route2.POST, hs, hp]

/-- C7 counterexample: in the legacy route version (part_000), an upstream
gateway failure is not surfaced as an error and does not leave the
conversation unmodified: the result carries no error flag, its text is the
fallback string, and the returned conversation context is the input context
extended by the user turn and by the fallback text as an `AI:` turn. -/
theorem upstream_error_C7_counterexample :
    (Route0.handleInformationGathering cfgA "hi" "CTX" (.error "boom")).error
        = false
    ∧ (Route0.handleInformationGathering cfgA "hi" "CTX" (.error "boom")).text
        = "Error generating response. Please try again."
    ∧ (Route0.handleInformationGathering cfgA "hi" "CTX"
        (.error "boom")).conversationContext
        = some "CTX\nUser: hi\n\nAI: Error generating response. Please try again.\n"
    ∧ (some "CTX\nUser: hi\n\nAI: Error generating response. Please try again.\n"
        ≠ some ("CTX" : String)) := by
  exact ⟨rfl, rfl, by decide, by decide⟩

/-- C7 amended. Upstream failure in the legacy route version (part_000):
`fetchGeminiResponse` converts every gateway failure into the fallback text,
and `handleInformationGathering` treats that text as a normal model reply —
no error flag, `isComplete` false, and the fallback appended to the returned
conversation context as an `AI:` turn; exactly one gateway outcome is
consumed per request (no automatic retry). -/
theorem upstream_error_C7_amended (cfg : Config) (u ctx e : String) :
    Route0.handleInformationGathering cfg u ctx (.error e)
      = { text := Route0.FALLBACK_TEXT,
          conversationContext := some (Route0.extendContext cfg u ctx
            ++ "\nAI: " ++ Route0.FALLBACK_TEXT ++ "\n"),
          isComplete := some false,
          projectInformation := some "" } := by
  rfl

theorem chunkOnly_chunkRecord (c : String) : chunkOnly (chunkRecord c) := by
  simp [chunkOnly, chunkRecord]

theorem chunkOnly_contRecord (c : String) (b : Bool) :
    chunkOnly { chunk := some c, continuation := some b : StreamRecord } := by
  simp [chunkOnly]

theorem discipline_single (r : StreamRecord) (hr : r.done = true) :
    terminalDiscipline [r] :=
  ⟨[], r, rfl, hr, by simp⟩

theorem discipline_map_concat (frags : List String)
    (mk : String → StreamRecord) (last : StreamRecord)
    (hmk : ∀ c, chunkOnly (mk c)) (hl : last.done = true) :
    terminalDiscipline (frags.map mk ++ [last]) := by
  refine ⟨frags.map mk, last, rfl, hl, ?_⟩
  intro r hr
  obtain ⟨c, _, rfl⟩ := List.mem_map.1 hr
  exact hmk c

theorem discipline_r2_streamTR (cfg : Config) (pi : String)
    (pr : Option PartialResponse) (w : World) (g : Gateway) :
    terminalDiscipline (Route2.streamToolRecommendation cfg pi pr w g) := by
  obtain ⟨ti, urls⟩ := w
  cases ti with
  | none => exact discipline_single _ rfl
  | some ti =>
    cases urls with
    | none => exact discipline_single _ rfl
    | some urls =>
      simp only [Route2.streamToolRecommendation]
      split
      · exact discipline_map_concat _ _ _ chunkOnly_chunkRecord rfl
      · exact discipline_map_concat _ _ _ chunkOnly_chunkRecord rfl

theorem discipline_r1_streamTR (cfg : Config) (pi p : String) (cm : Bool)
    (w : World) (g : Gateway) :
    terminalDiscipline (Route1.streamToolRecommendation cfg pi cm p w g) := by
  obtain ⟨ti, urls⟩ := w
  cases ti with
  | none => exact discipline_single _ rfl
  | some ti =>
    cases urls with
    | none => exact discipline_single _ rfl
    | some urls =>
      simp only [Route1.streamToolRecommendation]
      split
      · exact discipline_map_concat _ _ _ (fun c => chunkOnly_contRecord c cm) rfl
      · exact discipline_map_concat _ _ _ (fun c => chunkOnly_contRecord c cm) rfl

theorem discipline_r2_streamIG (cfg : Config) (u : String) (h : List Turn)
    (g : Gateway) :
    terminalDiscipline (Route2.streamInformationGathering cfg u h g) := by
  simp only [Route2.streamInformationGathering]
  split
  · exact discipline_single _ rfl
  · split
    · exact discipline_map_concat _ _ _ chunkOnly_chunkRecord rfl
    · exact discipline_map_concat _ _ _ chunkOnly_chunkRecord rfl

theorem discipline_r1_streamIG (u p : String) (cm : Bool) (h : List Turn)
    (g : Gateway) :
    terminalDiscipline (Route1.streamInformationGathering u h cm p g) := by
  simp only [Route1.streamInformationGathering]
  split
  · split
    · exact discipline_map_concat _ _ _ (fun c => chunkOnly_contRecord c true) rfl
    · exact discipline_map_concat _ _ _ (fun c => chunkOnly_contRecord c true) rfl
  · split
    · exact discipline_map_concat _ _ _ chunkOnly_chunkRecord rfl
    · exact discipline_map_concat _ _ _ chunkOnly_chunkRecord rfl

/-- C8. Terminal-record discipline: for every streaming response of the four
streaming generators (both route versions, any gateway outcome, any catalog
state that produces a stream), the records are a possibly empty run of pure
chunk records followed by exactly one final record with `done = true`; and on
a successful run the terminal record carries the final payload — `text` (and
`partialText`) for the recommendation phase, the updated conversation history
and the completion flag for the gathering phase. -/
theorem terminal_record_C8 :
    (∀ (cfg : Config) (pi : String) (pr : Option PartialResponse) (w : World)
        (g : Gateway),
      terminalDiscipline (Route2.streamToolRecommendation cfg pi pr w g))
    ∧ (∀ (cfg : Config) (pi p : String) (cm : Bool) (w : World) (g : Gateway),
      terminalDiscipline (Route1.streamToolRecommendation cfg pi cm p w g))
    ∧ (∀ (cfg : Config) (u : String) (h : List Turn) (g : Gateway),
      terminalDiscipline (Route2.streamInformationGathering cfg u h g))
    ∧ (∀ (u p : String) (cm : Bool) (h : List Turn) (g : Gateway),
      terminalDiscipline (Route1.streamInformationGathering u h cm p g))
    ∧ (∀ (cfg : Config) (pi ti urls : String) (pr : Option PartialResponse)
        (f : String → List String),
      ∃ pre rec, Route2.streamToolRecommendation cfg pi pr
          ⟨some ti, some urls⟩ (Gateway.pure f) = pre ++ [rec]
        ∧ rec.done = true ∧ rec.text.isSome ∧ rec.partialText.isSome)
    ∧ (∀ (cfg : Config) (pi p ti urls : String) (cm : Bool)
        (f : String → List String),
      ∃ pre rec, Route1.streamToolRecommendation cfg pi cm p
          ⟨some ti, some urls⟩ (Gateway.pure f) = pre ++ [rec]
        ∧ rec.done = true ∧ rec.text.isSome)
    ∧ (∀ (cfg : Config) (u : String) (h : List Turn)
        (f : String → List String),
      ∃ pre rec, Route2.streamInformationGathering cfg u h (Gateway.pure f)
          = pre ++ [rec]
        ∧ rec.done = true ∧ rec.conversationHistory.isSome
        ∧ rec.isComplete.isSome)
    ∧ (∀ (u p : String) (cm : Bool) (h : List Turn)
        (f : String → List String),
      ∃ pre rec, Route1.streamInformationGathering u h cm p (Gateway.pure f)
          = pre ++ [rec]
        ∧ rec.done = true ∧ rec.conversationHistory.isSome
        ∧ rec.isComplete.isSome) := by
  refine ⟨discipline_r2_streamTR, discipline_r1_streamTR,
    discipline_r2_streamIG, discipline_r1_streamIG, ?_, ?_, ?_, ?_⟩
  · intro cfg pi ti urls pr f
    cases pr with
    | none =>
      rw [r2_streamTR_eq_norm cfg pi ti urls f]
      exact ⟨_, _, rfl, rfl, rfl, rfl⟩
    | some pr =>
      rw [r2_streamTR_eq_cont cfg pi pr ti urls f]
      exact ⟨_, _, rfl, rfl, rfl, rfl⟩
  · intro cfg pi p ti urls cm f
    cases hc : (cm && p != "")
    · rw [r1_streamTR_eq_norm cfg pi p cm ti urls f hc]
      exact ⟨_, _, rfl, rfl, rfl⟩
    · rw [r1_streamTR_eq_cont cfg pi p cm ti urls f hc]
      exact ⟨_, _, rfl, rfl, rfl⟩
  · intro cfg u h f
    rw [r2_streamIG_eq cfg u h f]
    exact ⟨_, _, rfl, rfl, rfl, rfl⟩
  · intro u p cm h f
    cases hc : (cm && p != "")
    · rw [r1_streamIG_eq_norm u p cm h f hc]
      exact ⟨_, _, rfl, rfl, rfl, rfl⟩
    · rw [r1_streamIG_eq_cont u p cm h f hc]
      exact ⟨_, _, rfl, rfl, rfl, rfl⟩

theorem clientStep_of_ne (s : String) (hs : s ≠ "gathering")
    (d : StreamRecord) : Client.clientStep s d = s := by
  simp [Client.clientStep, hs]

theorem countTransitions_zero_of_ne (s : String) (hs : s ≠ "gathering")
    (ds : List StreamRecord) :
    Client.countTransitions s (Client.phaseTrace s ds) = 0 := by
  induction ds with
  | nil => rfl
  | cons d ds ih =>
    rw [Client.phaseTrace, clientStep_of_ne s hs d, Client.countTransitions,
      ih]
    simp [hs]

theorem countTransitions_le_one (s : String) (ds : List StreamRecord) :
    Client.countTransitions s (Client.phaseTrace s ds) ≤ 1 := by
  induction ds generalizing s with
  | nil => simp [Client.phaseTrace, Client.countTransitions]
  | cons d ds ih =>
    by_cases hg : s = "gathering"
    · subst hg
      by_cases hcond : d.isComplete.getD false = true
      · have hstep : Client.clientStep "gathering" d = "recommendation" := by
          simp [Client.clientStep, hcond]
        rw [Client.phaseTrace, hstep, Client.countTransitions,
          countTransitions_zero_of_ne "recommendation" (by decide) ds]
        simp
      · have hstep : Client.clientStep "gathering" d = "gathering" := by
          simp [Client.clientStep, hcond]
        rw [Client.phaseTrace, hstep, Client.countTransitions]
        simpa using ih "gathering"
    · rw [countTransitions_zero_of_ne s hg (d :: ds)]
      exact Nat.zero_le 1

theorem r2_streamTR_isComplete_none (cfg : Config) (pi : String)
    (pr : Option PartialResponse) (w : World) (g : Gateway) :
    ∀ r ∈ Route2.streamToolRecommendation cfg pi pr w g,
      r.isComplete = none := by
  obtain ⟨ti, urls⟩ := w
  cases ti with
  | none =>
    intro r hr
    simp only [Route2.streamToolRecommendation, List.mem_singleton] at hr
    subst hr
    rfl
  | some ti =>
    cases urls with
    | none =>
      intro r hr
      simp only [Route2.streamToolRecommendation, List.mem_singleton] at hr
      subst hr
      rfl
    | some urls =>
      intro r hr
      simp only [Route2.streamToolRecommendation] at hr
      split at hr
      · rcases List.mem_append.1 hr with h1 | h1
        · obtain ⟨c, _, rfl⟩ := List.mem_map.1 h1
          rfl
        · exact (List.mem_singleton.1 h1) ▸ rfl
      · rcases List.mem_append.1 hr with h1 | h1
        · obtain ⟨c, _, rfl⟩ := List.mem_map.1 h1
          rfl
        · exact (List.mem_singleton.1 h1) ▸ rfl

theorem r1_streamTR_isComplete_none (cfg : Config) (pi p : String)
    (cm : Bool) (w : World) (g : Gateway) :
    ∀ r ∈ Route1.streamToolRecommendation cfg pi cm p w g,
      r.isComplete = none := by
  obtain ⟨ti, urls⟩ := w
  cases ti with
  | none =>
    intro r hr
    simp only [Route1.streamToolRecommendation, List.mem_singleton] at hr
    subst hr
    rfl
  | some ti =>
    cases urls with
    | none =>
      intro r hr
      simp only [Route1.streamToolRecommendation, List.mem_singleton] at hr
      subst hr
      rfl
    | some urls =>
      intro r hr
      simp only [Route1.streamToolRecommendation] at hr
      split at hr
      · rcases List.mem_append.1 hr with h1 | h1
        · obtain ⟨c, _, rfl⟩ := List.mem_map.1 h1
          rfl
        · exact (List.mem_singleton.1 h1) ▸ rfl
      · rcases List.mem_append.1 hr with h1 | h1
        · obtain ⟨c, _, rfl⟩ := List.mem_map.1 h1
          rfl
        · exact (List.mem_singleton.1 h1) ▸ rfl

theorem r2_handleTR_isComplete_none (cfg : Config) (pi : String)
    (pr : Option PartialResponse) (w : World) (g : Gateway)
    (r : JsonResult)
    (h : Route2.handleToolRecommendation cfg pi pr w g = .ok r) :
    r.isComplete = none := by
  obtain ⟨ti, urls⟩ := w
  cases ti with
  | none =>
    rw [r2_handleTR_eq_fail cfg pi pr ⟨none, urls⟩ g (Or.inl rfl)] at h
    cases h
    rfl
  | some ti =>
    cases urls with
    | none =>
      rw [r2_handleTR_eq_fail cfg pi pr ⟨some ti, none⟩ g (Or.inr rfl)] at h
      cases h
      rfl
    | some urls =>
      simp only [Route2.handleToolRecommendation] at h
      cases pr with
      | none =>
        cases he : g.reply (recPrompt cfg pi ti urls) with
        | error e =>
          rw [he] at h
          exact absurd h (by simp [Except.bind])
        | ok t =>
          rw [he] at h
          cases h
          rfl
      | some pr0 =>
        cases he : g.reply (Route2.continuationPrompt (pr0.text.getD "")) with
        | error e =>
          rw [he] at h
          exact absurd h (by simp [Except.bind])
        | ok t =>
          rw [he] at h
          cases h
          rfl

theorem r1_handleTR_isComplete_none (cfg : Config) (pi p : String)
    (cm : Bool) (w : World) (g : Gateway) (r : JsonResult)
    (h : Route1.handleToolRecommendation cfg pi cm p w g = .ok r) :
    r.isComplete = none := by
  obtain ⟨ti, urls⟩ := w
  cases ti with
  | none =>
    rw [r1_handleTR_eq_fail cfg pi p cm ⟨none, urls⟩ g (Or.inl rfl)] at h
    cases h
    rfl
  | some ti =>
    cases urls with
    | none =>
      rw [r1_handleTR_eq_fail cfg pi p cm ⟨some ti, none⟩ g (Or.inr rfl)] at h
      cases h
      rfl
    | some urls =>
      simp only [Route1.handleToolRecommendation] at h
      split at h
      · cases he : g.reply (Route1.continuationPromptRecommendation p) with
        | error e =>
          rw [he] at h
          exact absurd h (by simp [Except.bind])
        | ok t =>
          rw [he] at h
          cases h
          rfl
      · cases he : g.reply (recPrompt cfg pi ti urls) with
        | error e =>
          rw [he] at h
          exact absurd h (by simp [Except.bind])
        | ok t =>
          rw [he] at h
          cases h
          rfl

/-- C9. Idempotent phase transition: along any sequence of processed
terminal records the client phase switches from "gathering" to
"recommendation" at most once (the guard requires the phase to still be
"gathering"); recommendation-phase handlers never set `isComplete` in any
produced record or result, and a record without `isComplete` can never move
the phase. -/
theorem idempotent_transition_C9 :
    (∀ (s : String) (ds : List StreamRecord),
      Client.countTransitions s (Client.phaseTrace s ds) ≤ 1)
    ∧ (∀ (cfg : Config) (pi : String) (pr : Option PartialResponse)
        (w : World) (g : Gateway),
      ∀ r ∈ Route2.streamToolRecommendation cfg pi pr w g,
        r.isComplete = none)
    ∧ (∀ (cfg : Config) (pi p : String) (cm : Bool) (w : World) (g : Gateway),
      ∀ r ∈ Route1.streamToolRecommendation cfg pi cm p w g,
        r.isComplete = none)
    ∧ (∀ (cfg : Config) (pi : String) (pr : Option PartialResponse)
        (w : World) (g : Gateway) (r : JsonResult),
      Route2.handleToolRecommendation cfg pi pr w g = .ok r →
        r.isComplete = none)
    ∧ (∀ (cfg : Config) (pi p : String) (cm : Bool) (w : World) (g : Gateway)
        (r : JsonResult),
      Route1.handleToolRecommendation cfg pi cm p w g = .ok r →
        r.isComplete = none)
    ∧ (∀ (s : String) (d : StreamRecord), d.isComplete = none →
      Client.clientStep s d = s) := by
  refine ⟨countTransitions_le_one, r2_streamTR_isComplete_none,
    r1_streamTR_isComplete_none, r2_handleTR_isComplete_none,
    r1_handleTR_isComplete_none, ?_⟩
  intro s d hd
  simp [Client.clientStep, hd]

/-- C10. A recommendation-phase continuation request still reads both catalog
files first: if either read fails it yields the single catalog-unavailable
error record (or JSON body) — even though, when the reads succeed, the
catalog contents are never substituted into the continuation prompt, so the
entire response is independent of the catalog values. -/
theorem continuation_reads_catalog_C10 (p : String) (hp : p ≠ "") :
    (∀ (cfg : Config) (pi : String) (pr : PartialResponse)
        (urls : Option String) (g : Gateway),
      Route2.streamToolRecommendation cfg pi (some pr) ⟨none, urls⟩ g
        = [{ error := true, text := some CATALOG_ERROR_TEXT, done := true }])
    ∧ (∀ (cfg : Config) (pi ti : String) (pr : PartialResponse) (g : Gateway),
      Route2.streamToolRecommendation cfg pi (some pr) ⟨some ti, none⟩ g
        = [{ error := true, text := some CATALOG_ERROR_TEXT, done := true }])
    ∧ (∀ (cfg : Config) (pi ti ti2 urls urls2 : String)
        (pr : PartialResponse) (g : Gateway),
      Route2.streamToolRecommendation cfg pi (some pr) ⟨some ti, some urls⟩ g
        = Route2.streamToolRecommendation cfg pi (some pr)
            ⟨some ti2, some urls2⟩ g)
    ∧ (∀ (cfg : Config) (pi ti ti2 urls urls2 : String)
        (pr : PartialResponse) (g : Gateway),
      Route2.handleToolRecommendation cfg pi (some pr) ⟨some ti, some urls⟩ g
        = Route2.handleToolRecommendation cfg pi (some pr)
            ⟨some ti2, some urls2⟩ g)
    ∧ (∀ (cfg : Config) (pi : String) (urls : Option String) (g : Gateway),
      Route1.streamToolRecommendation cfg pi true p ⟨none, urls⟩ g
        = [{ error := true, text := some CATALOG_ERROR_TEXT, done := true }])
    ∧ (∀ (cfg : Config) (pi ti : String) (g : Gateway),
      Route1.streamToolRecommendation cfg pi true p ⟨some ti, none⟩ g
        = [{ error := true, text := some CATALOG_ERROR_TEXT, done := true }])
    ∧ (∀ (cfg : Config) (pi ti ti2 urls urls2 : String)
        (f : String → List String),
      Route1.streamToolRecommendation cfg pi true p ⟨some ti, some urls⟩
          (Gateway.pure f)
        = Route1.streamToolRecommendation cfg pi true p ⟨some ti2, some urls2⟩
            (Gateway.pure f))
    ∧ (∀ (cfg : Config) (pi ti ti2 urls urls2 : String)
        (f : String → List String),
      Route1.handleToolRecommendation cfg pi true p ⟨some ti, some urls⟩
          (Gateway.pure f)
        = Route1.handleToolRecommendation cfg pi true p ⟨some ti2, some urls2⟩
            (Gateway.pure f)) := by
  have hc : (true && p != "") = true := by simp [hp]
  refine ⟨?_, ?_, ?_, ?_, ?_, ?_, ?_, ?_⟩
  · intro cfg pi pr urls g
    exact r2_streamTR_eq_fail cfg pi (some pr) ⟨none, urls⟩ g (Or.inl rfl)
  · intro cfg pi ti pr g
    exact r2_streamTR_eq_fail cfg pi (some pr) ⟨some ti, none⟩ g (Or.inr rfl)
  · intro cfg pi ti ti2 urls urls2 pr g
    rfl
  · intro cfg pi ti ti2 urls urls2 pr g
    rfl
  · intro cfg pi urls g
    exact r1_streamTR_eq_fail cfg pi p true ⟨none, urls⟩ g (Or.inl rfl)
  · intro cfg pi ti g
    exact r1_streamTR_eq_fail cfg pi p true ⟨some ti, none⟩ g (Or.inr rfl)
  · intro cfg pi ti ti2 urls urls2 f
    rw [r1_streamTR_eq_cont cfg pi p true ti urls f hc,
      r1_streamTR_eq_cont cfg pi p true ti2 urls2 f hc]
  · intro cfg pi ti ti2 urls urls2 f
    rw [r1_handleTR_eq_cont cfg pi p true ti urls f hc,
      r1_handleTR_eq_cont cfg pi p true ti2 urls2 f hc]

/-- C10 witness: at a concrete continuation request, the catalog-failure
record and the catalog-independence of the response, instantiated at
`p = "PARTIAL"`. -/
theorem continuation_reads_catalog_C10_witness :
    ("PARTIAL" : String) ≠ ""
    ∧ Route2.streamToolRecommendation cfgA "info" (some { text := some "PARTIAL" })
        ⟨none, some "urls"⟩ (Gateway.pure fun _ => ["X"])
      = [{ error := true, text := some CATALOG_ERROR_TEXT, done := true }]
    ∧ Route1.streamToolRecommendation cfgA "info" true "PARTIAL"
        ⟨some "catA", some "urlA"⟩ (Gateway.pure fun _ => ["X"])
      = Route1.streamToolRecommendation cfgA "info" true "PARTIAL"
        ⟨some "catB", some "urlB"⟩ (Gateway.pure fun _ => ["X"]) := by
  have h := continuation_reads_catalog_C10 "PARTIAL" (by decide)
  exact ⟨by decide,
    h.1 cfgA "info" { text := some "PARTIAL" } (some "urls")
      (Gateway.pure fun _ => ["X"]),
    h.2.2.2.2.2.2.1 cfgA "info" "catA" "catB" "urlA" "urlB" fun _ => ["X"]⟩

end ToolHire
